import Mathlib

/-!
Verification development for the databy-ai-backend pipeline core.

This file gives a shallow embedding, in Lean 4, of the chain-of-responsibility
pipeline engine of the repository (src/app/agent/core/pipeline.py), the
concrete data-explorer stages (src/app/agent/pipelines/data_explorer.py),
the session data model (src/app/agent/pipelines/records.py), and the
agent skeleton (src/app/agent/core/_skeleton.py: Spine and Actuator).

Modelling conventions:
- pandas DataFrames are modelled as `Table`: an explicit row count plus an
  ordered association list of named columns, each a list of cells; a missing
  cell (Python None / NaN) is `Option.none`.
- float arithmetic of pandas is modelled over `ℚ`; `Series.round(5)` is
  modelled by exact rational rounding at 5 decimal places with the IEEE
  half-to-even tie rule used by pandas.
- Python in-place mutation is modelled by explicit state passing: a method
  that mutates `session` returns the session value as it stands when the
  call ends, whether the call returned normally or raised.  A raising call
  is an `Except.error` carrying an `Err` value; the accompanying state
  components carry the (possibly mutated) objects at the moment of the raise.
- Error messages that CPython builds with f-strings are reproduced by string
  concatenation.  The one message whose exact text is unreproducible (the
  column-mismatch message interpolates Python `set` iteration order, which
  is hash-randomised) is modelled structurally by an `Err` constructor that
  carries the missing-column and extra-column lists themselves.
-/

/-- A scalar value held in a table cell: Python int, float (as `ℚ`), or str. -/
inductive Val where
  | intV (n : Int)
  | ratV (q : ℚ)
  | strV (s : String)
deriving DecidableEq, Repr

/-- A cell of a pandas column; `none` models None/NaN (a missing value). -/
abbrev Cell := Option Val

/-- Model of a pandas DataFrame: a row count and named columns in order.
Well-formed tables have every column list of length `nrows`. -/
structure Table where
  nrows : Nat
  cols : List (String × List Cell)
deriving DecidableEq, Repr

/-- Association-list lookup by string key (first match), used to model both
Python dict lookup and DataFrame column access. -/
def lookupStr {α : Type} (l : List (String × α)) (k : String) : Option α :=
  match l with
  | [] => none
  | c :: rest => if c.1 = k then some c.2 else lookupStr rest k

/-- Column access `df[name]` on a modelled DataFrame. -/
def Table.getCol (t : Table) (name : String) : Option (List Cell) :=
  lookupStr t.cols name

/-- Column names of a modelled DataFrame, in order (`df.columns`). -/
def Table.colNames (t : Table) : List String :=
  t.cols.map Prod.fst

/-- Column assignment `df[name] = vals`: replaces the column when the name
exists, otherwise appends a new column on the right (pandas semantics). -/
def Table.setCol (t : Table) (name : String) (vals : List Cell) : Table :=
  if (t.colNames).contains name then
    { t with cols := t.cols.map (fun c => if c.1 = name then (c.1, vals) else c) }
  else
    { t with cols := t.cols ++ [(name, vals)] }

/-- `df.isna().sum()` for one column: the number of missing cells. -/
def countMissing (cells : List Cell) : Nat :=
  (cells.filter (fun c => c = none)).length

/-- `Series.nunique()` for one column: distinct non-null values. -/
def nunique (cells : List Cell) : Nat :=
  (cells.filterMap id).dedup.length

/-- Dtype inference of the modelled pandas loader for a column, as rendered
by `dtypes.astype(str)`: any string makes the column object; an all-missing
column is object; missing values or floats among numbers give float64;
otherwise int64.  (External collaborator behaviour, per the dataset-loader
contract; matches pandas on int/float/str columns.) -/
def dtypeOf (cells : List Cell) : String :=
  if cells.any (fun c => match c with | some (.strV _) => true | _ => false) then "object"
  else if cells.all (fun c => c = none) then "object"
  else if cells.any (fun c => match c with | none => true | some (.ratV _) => true | _ => false) then "float64"
  else "int64"

/-- Round a rational to the nearest integer with the half-to-even tie rule
(the rounding used by IEEE floats, hence by pandas `Series.round`).
Computed on the numerator and denominator directly: `f` is the floor of
`q` and `r` its nonnegative remainder, so `q` lies strictly below,
strictly above, or exactly at the halfway point according as `2r` compares
with the denominator. -/
def halfEvenRound (q : ℚ) : Int :=
  let f : Int := Int.fdiv q.num q.den
  let r : Int := q.num - f * q.den
  if 2 * r < (q.den : Int) then f
  else if (q.den : Int) < 2 * r then f + 1
  else if f % 2 = 0 then f else f + 1

/-- `Series.round(5)`: rounding to five decimal places, modelled exactly
over `ℚ`. -/
def ratRound5 (q : ℚ) : ℚ :=
  (halfEvenRound (q * 100000) : ℚ) / 100000

/-- PIPELINE CONFIG of records.py: the five columns `DefineDataset` writes. -/
def DATA_SUMMARY_COLS : List String :=
  ["data_field_name", "data_type", "missing_count", "missing_ratio", "unique_count"]

/-- records.py: the column added by `DescribeDataset`. -/
def DATA_SUMMARY_NEW_COLS : List String := ["description"]

/-- records.py: the columns added by `DataTyperStage`. -/
def DATA_SUMMARY_TYPE_COLS : List String := ["_data_types", "_data_num_types"]

/-- records.py: `MIN_SAMPLE_SIZE`, the `head()` sample size used by the
describer and typer stages. -/
def MIN_SAMPLE_SIZE : Nat := 25

/-- The agent status object threaded through the chain (heartbeat.py
`HeartMonitor`; `GabyAgent` inherits it).  Only the `state` string matters
to the pipeline engine; the LLM client is irrelevant here because the
`Spine.run` inference call is mocked in the source. -/
structure HeartMonitor where
  state : String
deriving DecidableEq, Repr

/-- The session object threaded through the pipeline (records.py
`SessionProfiler`, restricted to the fields that the data-explorer stages
read or write; the identity and report fields it also carries are never
touched by these stages). -/
structure SessionProfiler where
  data : Option Table
  data_types : Option (List (String × String))
  data_summary : Option Table
  description : Option String
deriving DecidableEq, Repr

/-- Python exceptions relevant to the modelled code.  `colsMismatchError` is
the ValueError raised by `DescribeDataset.validate_stage_output`, carried
structurally (its f-string message interpolates Python set iteration order,
which is not deterministic); all other messages are carried verbatim except
that quote characters are dropped. -/
inductive Err where
  | valueError (msg : String)
  | typeError (msg : String)
  | attributeError (msg : String)
  | keyError (msg : String)
  | colsMismatchError (missing extra : List String)
deriving DecidableEq, Repr

/-- The TypeError CPython raises when a concrete stage runs
`super().forward(session)`: `ChainStage.forward` is declared as
`forward(self, agent, session)`, so the single positional argument binds to
`agent` and `session` is missing. -/
def superForwardArityErr : Err :=
  .typeError "forward() missing 1 required positional argument: session"

/-- `df.head(n)`: the first `n` rows of every column. -/
def Table.head (t : Table) (n : Nat) : Table :=
  { nrows := min n t.nrows, cols := t.cols.map (fun c => (c.1, c.2.take n)) }

/-- The summary DataFrame literal built by `DefineDataset.forward`
(data_explorer.py lines 201-207): one row per input column, with the
field name, rendered dtype, missing count, missing ratio rounded to five
decimals, and distinct non-null count of that column. -/
def mkDataSummary (t : Table) : Table :=
  { nrows := t.cols.length,
    cols := [
      ("data_field_name", t.cols.map (fun c => some (.strV c.1))),
      ("data_type", t.cols.map (fun c => some (.strV (dtypeOf c.2)))),
      ("missing_count", t.cols.map (fun c => some (.intV (countMissing c.2)))),
      ("missing_ratio", t.cols.map (fun c =>
          some (.ratV (ratRound5 ((countMissing c.2 : ℚ) / (t.nrows : ℚ) * 100))))),
      ("unique_count", t.cols.map (fun c => some (.intV (nunique c.2))))
    ] }

/-- `session.data.dtypes.to_dict()`: column name to rendered dtype. -/
def mkDataTypes (t : Table) : List (String × String) :=
  t.cols.map (fun c => (c.1, dtypeOf c.2))

/-- `DefineDataset.forward(session)` (data_explorer.py lines 182-208).
Raises ValueError when `session.data` is None; otherwise writes
`data_types` and `data_summary` onto the session and then runs
`super().forward(session)`, which raises the arity TypeError (the parent
method needs `(agent, session)`).  The second component is the session as
it stands when the call ends. -/
def DefineDataset.forward (s : SessionProfiler) :
    Except Err (Option SessionProfiler) × SessionProfiler :=
  match s.data with
  | none =>
      (.error (.valueError "Session Data Summary unavailable. Please define the data_summary in session before proceeding to this stage."), s)
  | some t =>
      let s1 := { s with data_types := some (mkDataTypes t),
                         data_summary := some (mkDataSummary t) }
      (.error superForwardArityErr, s1)

/-- `DefineDataset.validate_stage_output(session)` (lines 210-224): raises
when `data_summary` is None, otherwise returns None. -/
def DefineDataset.validate_stage_output (s : SessionProfiler) : Except Err Unit :=
  match s.data_summary with
  | none => .error (.valueError "Expected Attribute data_summary either returned None or missing.")
  | some _ => .ok ()

/-- A chat message as used by the ollama client model. -/
structure Message where
  role : String
  content : String
deriving DecidableEq, Repr

/-- An `ollama.ChatResponse`, restricted to the fields the code reads. -/
structure ChatResponse where
  model : String
  message : Message
deriving DecidableEq, Repr

/-- Keyword arguments of a Python call, as an ordered name/value list
(values restricted to strings, which is all the modelled callers pass). -/
abbrev KW := List (String × String)

/-- The hard-coded response `Spine.run` builds instead of calling ollama
(_skeleton.py lines 99-103: the chat call is commented out and replaced by
a mock while in debug mode). -/
def mockResponse : ChatResponse :=
  { model := "yellow", message := { role := "user", content := "hello" } }

/-- The default `Spine.post_process`: returns `output.message.get("content")`. -/
def Spine.defaultPost (r : ChatResponse) : Except Err String :=
  .ok r.message.content

/-- The output every `Spine.run` call yields under the mocked chat call and
the default post-processor, namely the mock message content. -/
def mockRunContent : String := mockResponse.message.content

/-- `InputContent` of _db.py, without the wall-clock timestamp field. -/
structure InputContent where
  message : List Message
  raw_input : KW
deriving DecidableEq, Repr

/-- `SpineListener` of _db.py: the audit record of one LLM call.  The
`input` and `output` fields are declared `init=False` in the source and are
unset until the listeners assign them, hence `Option`; the wall-clock
`created_timestamp` is outside the embedding. -/
structure SpineListener where
  function : String
  input : Option InputContent
  output : Option ChatResponse
deriving DecidableEq, Repr

/-- The mutable per-instance state `Spine.__init__` creates: the temporary
`current` holder and the append-only `history` list. -/
structure SpineState where
  current : Option SpineListener
  history : List SpineListener
deriving DecidableEq, Repr

/-- The state of a freshly constructed Spine instance. -/
def Spine.initState : SpineState := { current := none, history := [] }

/-- The behaviour a concrete Spine subclass plugs in: its qualified name,
its `pre_process` (which may raise, e.g. a TypeError on unexpected keyword
arguments), the prompt building step, and its `post_process`. -/
structure SpineClass where
  qualname : String
  pre : KW → Except Err KW
  buildMessage : KW → List Message
  post : ChatResponse → Except Err String

/-- `Spine.add`: append a listener record to the history. -/
def Spine.add (st : SpineState) (l : SpineListener) : SpineState :=
  { st with history := st.history ++ [l] }

/-- `Spine._input_listener` (_skeleton.py lines 61-71): requires `current`
to be None (the hasattr check always passes, `__init__` sets the field),
then fills it with a fresh record holding the input content. -/
def Spine.input_listener (qualname : String) (st : SpineState)
    (msg : List Message) (kwargs : KW) : Except Err SpineState :=
  match st.current with
  | some _ => .error (.valueError "Temporary holder, current expected to be None before calling another agent. Please reset current workspace")
  | none =>
      let l : SpineListener :=
        { function := qualname,
          input := some { message := msg, raw_input := kwargs },
          output := none }
      .ok { st with current := some l }

/-- `Spine._output_listener` (_skeleton.py lines 73-84): requires `current`
to be set, stores the response on it, appends it to the history and resets
`current` to None. -/
def Spine.output_listener (st : SpineState) (resp : ChatResponse) :
    Except Err SpineState :=
  match st.current with
  | none => .error (.valueError "Expected temporary content holder current attribute to be of SpineListener dataclass but is None. Pls revise build.")
  | some cur =>
      .ok { current := none,
            history := st.history ++ [{ cur with output := some resp }] }

/-- `Spine.run` (_skeleton.py lines 86-106): pre-process the keyword
arguments, build the prompt message, log the input, take the mocked chat
response, log the output, and return the post-processed text.  The second
component is the instance state when the call ends. -/
def Spine.run (cls : SpineClass) (st : SpineState) (kwargs : KW) :
    Except Err String × SpineState :=
  match cls.pre kwargs with
  | .error e => (.error e, st)
  | .ok input_kwargs =>
    let msg := cls.buildMessage input_kwargs
    match Spine.input_listener cls.qualname st msg kwargs with
    | .error e => (.error e, st)
    | .ok st1 =>
      match Spine.output_listener st1 mockResponse with
      | .error e => (.error e, st1)
      | .ok st2 =>
        match cls.post mockResponse with
        | .error e => (.error e, st2)
        | .ok out => (.ok out, st2)

/-- A sequence of `Spine.run` calls on one instance; `none` when some call
in the sequence raised. -/
def Spine.runAll (cls : SpineClass) (st : SpineState) (calls : List KW) :
    Option SpineState :=
  match calls with
  | [] => some st
  | kw :: rest =>
      match Spine.run cls st kw with
      | (.ok _, st1) => Spine.runAll cls st1 rest
      | (.error _, _) => none

/-- Python `str.lower()`, modelled characterwise (the classifier outputs
compared here are ASCII). -/
def strToLower (s : String) : String := ⟨s.data.map Char.toLower⟩

/-- `NumericTyper.post_process(response)` (data_explorer.py lines 111-129):
takes the default-post-processed content; the source returns it when its
lowercase form is NOT in the subtype list (note the source misspells
"continous") and raises a bare ValueError when it IS in the list. -/
def NumericTyper.post_process (r : ChatResponse) : Except Err String :=
  match Spine.defaultPost r with
  | .error e => .error e
  | .ok output =>
      if (["continous", "binary", "multi", "ordinal", "nominal"].any
            (fun v => v = strToLower output)) then
        .error (.valueError "")
      else
        .ok output

/-- `DataMetaSummary.run_loop` (lines 68-95): one mocked `run` call per
column of the sample, mapping each column name to the mock content. -/
def DataMetaSummary.run_loop (sample : Table) : List (String × String) :=
  sample.cols.map (fun c => (c.1, mockRunContent))

/-- `DataTyper.run_loop` (lines 145-176): one mocked `run` per column
(every result is the mock content); a column is sent to `NumericTyper` only
when its result equals "numeric", which the mock content never does, and
the `NumericTyper` output would again be the mock content (its inverted
post-processor passes the mock content through). -/
def DataTyper.run_loop (sample : Table) :
    List (String × String) × List (String × String) :=
  let meta := sample.cols.map (fun c => (c.1, mockRunContent))
  let meta_num := (meta.filter (fun p => p.2 = "numeric")).map (fun p => (p.1, mockRunContent))
  (meta, meta_num)

/-- `Series.map(dict)` on a column of field names: a string cell found in
the dict maps to its value, anything else becomes NaN. -/
def seriesMap (vals : List Cell) (d : List (String × String)) : List Cell :=
  vals.map (fun c =>
    match c with
    | some (.strV s) =>
        match lookupStr d s with
        | some v => some (.strV v)
        | none => none
    | _ => none)

/-- Python `set(a) == set(b)` on column-name lists. -/
def setEq (a b : List String) : Bool :=
  a.all (fun x => b.contains x) && b.all (fun x => a.contains x)

/-- Python `set(a) - set(b)` on column-name lists (members, deduplicated;
the iteration order of the resulting set is not meaningful). -/
def listDiff (a b : List String) : List String :=
  (a.filter (fun x => !(b.contains x))).dedup

/-- The exact column set `DescribeDataset.validate_stage_output` expects:
`DATA_SUMMARY_COLS + DATA_SUMMARY_NEW_COLS`. -/
def describeSummaryCols : List String := DATA_SUMMARY_COLS ++ DATA_SUMMARY_NEW_COLS

/-- `DescribeDataset.validate_stage_output(session)` (data_explorer.py
lines 261-282): when `data_summary` exists, its column set must equal the
five base columns plus description; otherwise one ValueError is raised
carrying both the missing and the extra column sets.  A missing
`data_summary` raises its own ValueError.  Returns None on success and
never touches the session. -/
def DescribeDataset.validate_stage_output (s : SessionProfiler) : Except Err Unit :=
  match s.data_summary with
  | some fr =>
      if setEq fr.colNames describeSummaryCols then .ok ()
      else .error (.colsMismatchError (listDiff describeSummaryCols fr.colNames)
                                      (listDiff fr.colNames describeSummaryCols))
  | none => .error (.valueError "Data Summary expected to be returned but is not. In-built problem - pls revise. ")

/-- `DescribeDataset.forward(agent, session)` (lines 233-259).  Raises
ValueError when `data_summary` is None.  Otherwise: sets
`session.description` to the (mocked) dataset-describer output; takes a
`MIN_SAMPLE_SIZE` head sample of `session.data` (an AttributeError if
`data` is None); maps the per-column describer outputs onto a new
`description` column keyed by `data_field_name`; then runs
`super().forward(session)`, which raises the arity TypeError.  The trailing
components are the agent and session when the call ends. -/
def DescribeDataset.forward (a : HeartMonitor) (s : SessionProfiler) :
    Except Err (Option SessionProfiler) × HeartMonitor × SessionProfiler :=
  match s.data_summary with
  | none =>
      (.error (.valueError "session Data Summary unavailable. Please define the data_summary in session before proceeding to this stage."), a, s)
  | some fr =>
      let s1 := { s with description := some mockRunContent }
      match s.data with
      | none => (.error (.attributeError "NoneType object has no attribute head"), a, s1)
      | some t =>
          let sample := t.head MIN_SAMPLE_SIZE
          let meta := DataMetaSummary.run_loop sample
          match fr.getCol "data_field_name" with
          | none => (.error (.attributeError "DataFrame object has no attribute data_field_name"), a, s1)
          | some names =>
              let fr1 := fr.setCol "description" (seriesMap names meta)
              let s2 := { s1 with data_summary := some fr1 }
              (.error superForwardArityErr, a, s2)

/-- `DataTyperStage.forward(agent, session)` (lines 290-306).  When
`data_summary` is a DataFrame: samples the data, runs the (mocked) typer
loop, and writes the `_data_types` and `_data_num_types` columns keyed by
`data_field_name`; when `data_summary` is None the whole block is skipped.
Either way the method ends in `super().forward(session)`, the arity
TypeError. -/
def DataTyperStage.forward (a : HeartMonitor) (s : SessionProfiler) :
    Except Err (Option SessionProfiler) × HeartMonitor × SessionProfiler :=
  match s.data_summary with
  | none => (.error superForwardArityErr, a, s)
  | some fr =>
      match s.data with
      | none => (.error (.attributeError "NoneType object has no attribute head"), a, s)
      | some t =>
          let sample := t.head MIN_SAMPLE_SIZE
          let looped := DataTyper.run_loop sample
          match fr.getCol "data_field_name" with
          | none => (.error (.keyError "data_field_name"), a, s)
          | some names =>
              let fr1 := fr.setCol "_data_types" (seriesMap names looped.1)
              let fr2 := fr1.setCol "_data_num_types" (seriesMap names looped.2)
              (.error superForwardArityErr, a, { s with data_summary := some fr2 })

/-- `DataTyperStage.validate_stage_output(session)` (lines 308-316): raises
when any of the two typing columns is absent, naming exactly the missing
ones (an AttributeError when `data_summary` is None, since the source reads
`.columns` unguarded). -/
def DataTyperStage.validate_stage_output (s : SessionProfiler) : Except Err Unit :=
  match s.data_summary with
  | none => .error (.attributeError "NoneType object has no attribute columns")
  | some fr =>
      match DATA_SUMMARY_TYPE_COLS.filter (fun c => !(fr.colNames.contains c)) with
      | [] => .ok ()
      | missing => .error (.colsMismatchError missing [])

/-- The behaviour of one stage as seen by the generic engine
`ChainStage.forward` (pipeline.py): its class qualname (used by
`update_agent_state`) and its dynamically dispatched
`validate_stage_output`.  The validator receives whatever object the
`session` variable holds (possibly None) and yields its Python return
value together with the session object as it stands afterwards. -/
structure GStage where
  name : String
  validate : Option SessionProfiler →
      Except Err (Option SessionProfiler) × Option SessionProfiler

/-- `ChainStage.update_agent_state(agent)` (pipeline.py lines 56-68): sets
`agent.state` to the qualname of `self._next_stage` and returns the agent. -/
def ChainStage.update_agent_state (nextName : String) (a : HeartMonitor) : HeartMonitor :=
  { a with state := nextName }

/-- The three ways the body of `ChainStage.forward` can end: by calling
`self._next_stage.forward(agent, session)` with the given arguments, by
returning a value (None on the terminal branch), or by an exception
propagating out (carrying the agent and session at that moment). -/
inductive StepOut where
  | recurseInto (a : HeartMonitor) (s : Option SessionProfiler)
  | returned (v : Option SessionProfiler)
  | raised (e : Err) (a : HeartMonitor) (s : Option SessionProfiler)
deriving DecidableEq

/-- `ChainStage.forward(self, agent, session)` (pipeline.py lines 82-106),
one step of the engine.  With a successor present it (1) advances
`agent.state` to the successor's qualname via `update_agent_state`, then
(2) calls `self.validate_stage_output(session)` and rebinds the `session`
variable to the validator's return value, then (3) recurses into the
successor with that rebound value.  With no successor it calls the no-op
`ChainBuilder.validate_stage_output` (whose abstract body is `pass`) and
returns None. -/
def ChainStage.forwardStep (self : GStage) (next_stage : Option GStage)
    (a : HeartMonitor) (s : Option SessionProfiler) : StepOut :=
  match next_stage with
  | some nxt =>
      let a1 := ChainStage.update_agent_state nxt.name a
      match self.validate s with
      | (.error e, s1) => .raised e a1 s1
      | (.ok ret, _s1) => .recurseInto a1 ret
  | none => .returned none

/-- `DefineDataset.validate_stage_output` as the generic engine dispatches
it: on a None session the attribute read raises; otherwise the concrete
validator runs and (as a Python method without a return statement) returns
None. -/
def DefineDataset.gvalidate (s : Option SessionProfiler) :
    Except Err (Option SessionProfiler) × Option SessionProfiler :=
  match s with
  | none => (.error (.attributeError "NoneType object has no attribute data_summary"), none)
  | some sp =>
      match DefineDataset.validate_stage_output sp with
      | .error e => (.error e, some sp)
      | .ok _ => (.ok none, some sp)

/-- `DescribeDataset.validate_stage_output` as dispatched by the engine. -/
def DescribeDataset.gvalidate (s : Option SessionProfiler) :
    Except Err (Option SessionProfiler) × Option SessionProfiler :=
  match s with
  | none => (.error (.attributeError "NoneType object has no attribute data_summary"), none)
  | some sp =>
      match DescribeDataset.validate_stage_output sp with
      | .error e => (.error e, some sp)
      | .ok _ => (.ok none, some sp)

/-- `DataTyperStage.validate_stage_output` as dispatched by the engine. -/
def DataTyperStage.gvalidate (s : Option SessionProfiler) :
    Except Err (Option SessionProfiler) × Option SessionProfiler :=
  match s with
  | none => (.error (.attributeError "NoneType object has no attribute data_summary"), none)
  | some sp =>
      match DataTyperStage.validate_stage_output sp with
      | .error e => (.error e, some sp)
      | .ok _ => (.ok none, some sp)

/-- The `DefineDataset` stage as the generic engine sees it. -/
def gDefine : GStage := { name := "DefineDataset", validate := DefineDataset.gvalidate }

/-- The `DescribeDataset` stage as the generic engine sees it. -/
def gDescribe : GStage := { name := "DescribeDataset", validate := DescribeDataset.gvalidate }

/-- The `DataTyperStage` stage as the generic engine sees it. -/
def gTyper : GStage := { name := "DataTyperStage", validate := DataTyperStage.gvalidate }

/-- The class-level registries of `Actuator` (_skeleton.py lines 122-135):
`workflow` maps a workflow name to tool metadata records, `_action_space`
maps it to the direct callable table (callables identified by function
name).  Metadata is carried abstractly; only the lookup structure matters
to the modelled operations. -/
structure ActuatorState where
  workflow : List (String × List (String × String))
  action_space : List (String × List (String × String))
deriving DecidableEq, Repr

/-- The registry state right after the `Actuator` class statement runs:
both class-level dicts empty.  (The modules that would register workflows
try to bind the class under the name `ActionSpace`, which `_skeleton.py` does
not define, so no registration call of the repository can run.) -/
def Actuator.emptyState : ActuatorState := { workflow := [], action_space := [] }

/-- `Actuator.action_space(workflow_name)` (_skeleton.py lines 141-148):
the callable table of a workflow; raises a ValueError naming the workflow
when it was never registered. -/
def Actuator.action_space (st : ActuatorState) (workflow_name : String) :
    Except Err (List (String × String)) :=
  match lookupStr st.action_space workflow_name with
  | none => .error (.valueError ("Requested " ++ workflow_name ++ " does not exist in the Actuator. Please check if this function is defined otherwise revise requested tool."))
  | some d => .ok d

/-- `Actuator.get_action(workflow_name, function_name)` (lines 150-159):
looks the workflow up first (propagating its error), then the tool,
raising a ValueError naming the tool when it is absent. -/
def Actuator.get_action (st : ActuatorState) (workflow_name function_name : String) :
    Except Err String :=
  match Actuator.action_space st workflow_name with
  | .error e => .error e
  | .ok actions =>
      match lookupStr actions function_name with
      | none => .error (.valueError ("Function " ++ function_name ++ " is not registry as a tool. Please use @agent_toolbox decorator."))
      | some f => .ok f

/-- Whether `sub` occurs contiguously inside `s` (decidable substring
test over the character lists of the two strings). -/
def occursWithin (s sub : List Char) : Bool :=
  match s with
  | [] => sub.isEmpty
  | _ :: t => sub.isPrefixOf s || occursWithin t sub

/-- Substring occurrence on strings, used to state which names an error
message identifies. -/
def strContains (s sub : String) : Bool :=
  occursWithin s.data sub.data

/-- Cell at row `i` of the named column (`df[name][i]`). -/
def Table.colVal (t : Table) (name : String) (i : Nat) : Option Cell :=
  (t.getCol name).bind (fun l => l.get? i)

/-- Scenario A input table of the spec:
`{"age": [29, None, 42], "city": ["Sydney", "Perth", None]}`. -/
def tableA : Table :=
  { nrows := 3,
    cols := [
      ("age", [some (.intV 29), none, some (.intV 42)]),
      ("city", [some (.strV "Sydney"), some (.strV "Perth"), none])
    ] }

/-- A fresh session carrying the Scenario A table and nothing else. -/
def sessionA : SessionProfiler :=
  { data := some tableA, data_types := none, data_summary := none, description := none }

/-- A data summary holding exactly the five base columns (no description),
as `DefineDataset` leaves it; used to exercise the describe validator. -/
def fiveColFrame : Table :=
  { nrows := 0, cols := DATA_SUMMARY_COLS.map (fun c => (c, ([] : List Cell))) }

/-- A session sitting between `DefineDataset` and `DescribeDataset`: its
summary has the five base columns only, so the describe validator fails. -/
def cexSession : SessionProfiler :=
  { data := some tableA, data_types := none,
    data_summary := some fiveColFrame, description := none }

/-- `DataSummary.pre_process(data_summary)` (data_explorer.py lines 38-47),
including the TypeErrors CPython raises when `run(**kwargs)` binds the
keyword arguments against this signature. -/
def DataSummary.pre_process (kwargs : KW) : Except Err KW :=
  match lookupStr kwargs "data_summary" with
  | some v =>
      if kwargs.length = 1 then .ok [("data_table", v)]
      else .error (.typeError "pre_process() got an unexpected keyword argument")
  | none => .error (.typeError "pre_process() missing 1 required positional argument: data_summary")

/-- The `DataSummary` Spine subclass as a concrete `SpineClass` instance:
its pre-processor, the default post-processor, and a fixed prompt message
(the prompt text comes from a yaml config and is immaterial to every
property stated here). -/
def dataSummaryClass : SpineClass :=
  { qualname := "DataSummary",
    pre := DataSummary.pre_process,
    buildMessage := fun _ => [{ role := "system", content := "prompt" }],
    post := Spine.defaultPost }

/-- Claim C1 (amended): when `ChainStage.forward` runs for a stage with a
successor (after the subclass has already performed its own transformation),
it first advances `agent.state` to the successor's name, then runs the
stage's own validation, then recurses into the successor with the
validator's return value; when the validation raises, the successor is
never invoked, but `agent.state` has already been advanced, so after the
error `agent.state` names the successor of the failing stage, not the
failing stage itself. -/
theorem chainstage_forward_order_amended (stage nxt : GStage) (a : HeartMonitor)
    (s : Option SessionProfiler) :
    (∀ e s1, stage.validate s = (.error e, s1) →
        ChainStage.forwardStep stage (some nxt) a s =
          .raised e (ChainStage.update_agent_state nxt.name a) s1) ∧
    (∀ ret s1, stage.validate s = (.ok ret, s1) →
        ChainStage.forwardStep stage (some nxt) a s =
          .recurseInto (ChainStage.update_agent_state nxt.name a) ret) := by
  constructor
  · intro e s1 h
    simp [ChainStage.forwardStep, h]
  · intro ret s1 h
    simp [ChainStage.forwardStep, h]

/-- Claim C1 (counterexample): a DescribeDataset stage whose own validation
fails (summary lacks the description column) with DataTyperStage as its
successor.  `forward` raises the validation error, yet `agent.state` has
already been advanced to "DataTyperStage" — so after the error the state
does NOT name the failing stage, contradicting the claim. -/
theorem chainstage_forward_state_cex :
    ChainStage.forwardStep gDescribe (some gTyper)
        { state := "DescribeDataset" } (some cexSession) =
      .raised (.colsMismatchError ["description"] [])
        { state := "DataTyperStage" } (some cexSession) ∧
    ("DataTyperStage" : String) ≠ "DescribeDataset" := by
  exact ⟨rfl, by decide⟩

/-- Witness for the amended C1 theorem at the concrete failing stage. -/
theorem chainstage_forward_order_amended_witness :
    ChainStage.forwardStep gDescribe (some gTyper)
        { state := "DescribeDataset" } (some cexSession) =
      .raised (.colsMismatchError ["description"] [])
        (ChainStage.update_agent_state gTyper.name { state := "DescribeDataset" })
        (some cexSession) :=
  (chainstage_forward_order_amended gDescribe gTyper
      { state := "DescribeDataset" } (some cexSession)).1
    (.colsMismatchError ["description"] []) (some cexSession) rfl

/-- Claim C2: executing the DataExplorer chain head on a session with a
non-null table.  The stage performs its own transformation and then calls
`super().forward(session)` with a single argument, which raises the arity
TypeError, so the traversal halts inside stage A: DescribeDataset and
DataTyperStage are never invoked and no final session is returned.  This
contradicts the repository's own test (test_data_explorer.py,
`test_data_explorer_define_dataset`), which expects the call to return the
session. -/
theorem explorer_chain_halts_at_first_stage :
    DefineDataset.forward sessionA =
      (.error superForwardArityErr,
        { sessionA with data_types := some (mkDataTypes tableA),
                        data_summary := some (mkDataSummary tableA) }) := rfl

/-- Claim C3: the terminal branch of `ChainStage.forward` (no successor)
returns None, not the session it was given — `.returned none` here — while
the claim (and the repository's own test) expect the session itself as the
terminal result. -/
theorem terminal_forward_returns_none :
    ChainStage.forwardStep gTyper none { state := "DataTyperStage" } (some sessionA) =
      .returned none ∧
    StepOut.returned none ≠ .returned (some sessionA) := by
  exact ⟨rfl, by decide⟩

/-- Claim C4: for every session whose data is a non-null table (zero-row
and zero-column tables included), the data summary established by
`DefineDataset.forward` has exactly the columns data_field_name, data_type,
missing_count, missing_ratio, unique_count, in that order, and one row per
input column (every summary column has one entry per column of the input
table). -/
theorem define_dataset_summary_schema (s : SessionProfiler) (t : Table)
    (h : s.data = some t) :
    ∃ fr, (DefineDataset.forward s).2.data_summary = some fr ∧
      fr.colNames = DATA_SUMMARY_COLS ∧
      ∀ c ∈ fr.cols, c.2.length = t.cols.length := by
  refine ⟨mkDataSummary t, ?_, rfl, ?_⟩
  · simp [DefineDataset.forward, h]
  · intro c hc
    simp only [mkDataSummary, List.mem_cons, List.not_mem_nil, or_false] at hc
    rcases hc with h1 | h1 | h1 | h1 | h1 <;> subst h1 <;>
      simp [List.length_map]

/-- Witness for C4 at a zero-column, zero-row table. -/
theorem define_dataset_summary_schema_witness :
    ∃ fr, (DefineDataset.forward
        { data := some { nrows := 0, cols := [] }, data_types := none,
          data_summary := none, description := none }).2.data_summary = some fr ∧
      fr.colNames = DATA_SUMMARY_COLS ∧
      ∀ c ∈ fr.cols, c.2.length = ({ nrows := 0, cols := [] } : Table).cols.length :=
  define_dataset_summary_schema _ _ rfl

/-- Claim C5: in the summary produced by `DefineDataset`, row `i` (the row
for input column `i`) has missing_count equal to that column's missing-cell
count, missing_ratio equal to missing_count divided by the row count times
100 rounded to five decimal places, and unique_count equal to the number of
distinct non-null values; and on the Scenario A table both rows get
missing_count 1, missing_ratio 33.33333, unique_count 2. -/
theorem define_dataset_summary_stats :
    (∀ (t : Table) (i : Nat) (c : String × List Cell), t.cols.get? i = some c →
      (mkDataSummary t).colVal "missing_count" i = some (some (.intV (countMissing c.2))) ∧
      (mkDataSummary t).colVal "missing_ratio" i =
        some (some (.ratV (ratRound5 ((countMissing c.2 : ℚ) / (t.nrows : ℚ) * 100)))) ∧
      (mkDataSummary t).colVal "unique_count" i = some (some (.intV (nunique c.2)))) ∧
    ((mkDataSummary tableA).colVal "missing_count" 0 = some (some (.intV 1)) ∧
     (mkDataSummary tableA).colVal "missing_count" 1 = some (some (.intV 1)) ∧
     (mkDataSummary tableA).colVal "missing_ratio" 0 =
        some (some (.ratV (3333333 / 100000))) ∧
     (mkDataSummary tableA).colVal "missing_ratio" 1 =
        some (some (.ratV (3333333 / 100000))) ∧
     (mkDataSummary tableA).colVal "unique_count" 0 = some (some (.intV 2)) ∧
     (mkDataSummary tableA).colVal "unique_count" 1 = some (some (.intV 2))) := by
  have hval : ratRound5 (((1 : ℕ) : ℚ) / ((3 : ℕ) : ℚ) * 100) = 3333333 / 100000 := by
    have hc : ((1 : ℕ) : ℚ) / ((3 : ℕ) : ℚ) * 100 * 100000 = mkRat 10000000 3 := by
      rw [Rat.mkRat_eq_divInt, Rat.divInt_eq_div]; push_cast; ring_nf
    rw [ratRound5, hc]
    have hf : halfEvenRound (mkRat 10000000 3) = 3333333 := by decide
    rw [hf]; norm_num
  constructor
  · intro t i c h
    have g1 : (mkDataSummary t).getCol "missing_count" =
        some (t.cols.map (fun c => some (.intV (countMissing c.2)))) := rfl
    have g2 : (mkDataSummary t).getCol "missing_ratio" =
        some (t.cols.map (fun c =>
          some (.ratV (ratRound5 ((countMissing c.2 : ℚ) / (t.nrows : ℚ) * 100))))) := rfl
    have g3 : (mkDataSummary t).getCol "unique_count" =
        some (t.cols.map (fun c => some (.intV (nunique c.2)))) := rfl
    have h2 : t.cols[i]? = some c := by
      rw [← List.get?_eq_getElem?]; exact h
    refine ⟨?_, ?_, ?_⟩ <;>
      simp [Table.colVal, g1, g2, g3, List.getElem?_map, h2]
  · refine ⟨rfl, rfl, ?_, ?_, rfl, rfl⟩
    · have e0 : (mkDataSummary tableA).colVal "missing_ratio" 0 =
          some (some (.ratV (ratRound5 (((1 : ℕ) : ℚ) / ((3 : ℕ) : ℚ) * 100)))) := rfl
      rw [e0, hval]
    · have e1 : (mkDataSummary tableA).colVal "missing_ratio" 1 =
          some (some (.ratV (ratRound5 (((1 : ℕ) : ℚ) / ((3 : ℕ) : ℚ) * 100)))) := rfl
      rw [e1, hval]

/-- Witness for C5 at row 0 of the Scenario A table. -/
theorem define_dataset_summary_stats_witness :
    (mkDataSummary tableA).colVal "missing_count" 0 =
        some (some (.intV (countMissing [some (.intV 29), none, some (.intV 42)]))) ∧
    (mkDataSummary tableA).colVal "missing_ratio" 0 =
        some (some (.ratV (ratRound5 ((countMissing [some (.intV 29), none, some (.intV 42)] : ℚ) /
          (tableA.nrows : ℚ) * 100)))) ∧
    (mkDataSummary tableA).colVal "unique_count" 0 =
        some (some (.intV (nunique [some (.intV 29), none, some (.intV 42)]))) :=
  define_dataset_summary_stats.1 tableA 0
    ("age", [some (.intV 29), none, some (.intV 42)]) rfl

/-- Claim C6: a stage called with its required upstream field absent raises
without mutating the session: `DefineDataset.forward` with `data` None
raises its precondition ValueError; `DescribeDataset.forward` with
`data_summary` None raises its precondition ValueError; and
`DataTyperStage.forward` with `data_summary` None skips its whole body and
raises (the `super().forward(session)` arity TypeError).  In every case the
session (and agent) returned alongside the error is exactly the input one. -/
theorem stage_precondition_fail_fast :
    (∀ s : SessionProfiler, s.data = none →
        DefineDataset.forward s =
          (.error (.valueError "Session Data Summary unavailable. Please define the data_summary in session before proceeding to this stage."), s)) ∧
    (∀ (a : HeartMonitor) (s : SessionProfiler), s.data_summary = none →
        DescribeDataset.forward a s =
          (.error (.valueError "session Data Summary unavailable. Please define the data_summary in session before proceeding to this stage."), a, s)) ∧
    (∀ (a : HeartMonitor) (s : SessionProfiler), s.data_summary = none →
        DataTyperStage.forward a s = (.error superForwardArityErr, a, s)) := by
  refine ⟨?_, ?_, ?_⟩
  · intro s h
    simp [DefineDataset.forward, h]
  · intro a s h
    simp [DescribeDataset.forward, h]
  · intro a s h
    simp [DataTyperStage.forward, h]

/-- Witness for C6 at the empty session and an idle agent. -/
theorem stage_precondition_fail_fast_witness :
    DefineDataset.forward
        { data := none, data_types := none, data_summary := none, description := none } =
      (.error (.valueError "Session Data Summary unavailable. Please define the data_summary in session before proceeding to this stage."),
        { data := none, data_types := none, data_summary := none, description := none }) ∧
    DescribeDataset.forward { state := "idle" }
        { data := none, data_types := none, data_summary := none, description := none } =
      (.error (.valueError "session Data Summary unavailable. Please define the data_summary in session before proceeding to this stage."),
        { state := "idle" },
        { data := none, data_types := none, data_summary := none, description := none }) ∧
    DataTyperStage.forward { state := "idle" }
        { data := none, data_types := none, data_summary := none, description := none } =
      (.error superForwardArityErr, { state := "idle" },
        { data := none, data_types := none, data_summary := none, description := none }) :=
  ⟨stage_precondition_fail_fast.1 _ rfl,
   stage_precondition_fail_fast.2.1 _ _ rfl,
   stage_precondition_fail_fast.2.2 _ _ rfl⟩

/-- Claim C7: `DescribeDataset.validate_stage_output` accepts a session
exactly when its data summary exists and its column set equals the five
base columns plus description; on a different column set it raises one
error carrying both the missing and the extra columns (the two set
differences); and the reported lists are set differences in the membership
sense.  The validator only reads the session. -/
theorem describe_validate_column_set :
    (∀ s : SessionProfiler,
        DescribeDataset.validate_stage_output s = .ok () ↔
          ∃ fr, s.data_summary = some fr ∧
            setEq fr.colNames describeSummaryCols = true) ∧
    (∀ (s : SessionProfiler) (fr : Table), s.data_summary = some fr →
        setEq fr.colNames describeSummaryCols = false →
        DescribeDataset.validate_stage_output s =
          .error (.colsMismatchError (listDiff describeSummaryCols fr.colNames)
                                     (listDiff fr.colNames describeSummaryCols))) ∧
    (∀ (a b : List String) (x : String), x ∈ listDiff a b ↔ x ∈ a ∧ x ∉ b) := by
  refine ⟨?_, ?_, ?_⟩
  · intro s
    constructor
    · intro h
      cases hds : s.data_summary with
      | none => simp [DescribeDataset.validate_stage_output, hds] at h
      | some fr =>
          refine ⟨fr, rfl, ?_⟩
          cases hb : setEq fr.colNames describeSummaryCols with
          | false => simp [DescribeDataset.validate_stage_output, hds, hb] at h
          | true => rfl
    · rintro ⟨fr, hds, hset⟩
      simp [DescribeDataset.validate_stage_output, hds, hset]
  · intro s fr hds hset
    simp [DescribeDataset.validate_stage_output, hds, hset]
  · intro a b x
    simp [listDiff, List.mem_dedup, List.mem_filter]

/-- Witness for C7 at the concrete five-column (description-less) session. -/
theorem describe_validate_column_set_witness :
    DescribeDataset.validate_stage_output cexSession =
      .error (.colsMismatchError (listDiff describeSummaryCols fiveColFrame.colNames)
                                 (listDiff fiveColFrame.colNames describeSummaryCols)) :=
  describe_validate_column_set.2.1 cexSession fiveColFrame rfl rfl

/-- Claim C8: `NumericTyper.post_process` does the opposite of its own
docstring ("Returns processed response if valid / Raises ValueError if
response is not a valid numeric type"): it raises the ValueError exactly
when the response IS one of the listed subtype tags and passes any other
text through.  Concretely it raises on "binary", accepts the mock content
"hello" (not a subtype tag), and accepts the correctly spelled
"continuous" because the source list misspells it as "continous". -/
theorem numeric_typer_post_process_inverted :
    NumericTyper.post_process
        { model := "m", message := { role := "assistant", content := "binary" } } =
      .error (.valueError "") ∧
    NumericTyper.post_process
        { model := "m", message := { role := "assistant", content := "hello" } } =
      .ok "hello" ∧
    ¬ "hello" ∈ ["continuous", "binary", "multi", "ordinal", "nominal"] ∧
    NumericTyper.post_process
        { model := "m", message := { role := "assistant", content := "continuous" } } =
      .ok "continuous" := by
  exact ⟨rfl, rfl, by decide, rfl⟩

/-- Claim C9 (counterexample): `Actuator.get_action` on a never-registered
workflow name raises a ValueError whose message contains the workflow name
but NOT the requested tool name, contradicting the claim that both names
are identified. -/
theorem get_action_unregistered_workflow_cex :
    ∃ msg,
      Actuator.get_action Actuator.emptyState "unregistered_workflow" "foo" =
        .error (.valueError msg) ∧
      strContains msg "unregistered_workflow" = true ∧
      strContains msg "foo" = false := by
  refine ⟨"Requested unregistered_workflow does not exist in the Actuator. Please check if this function is defined otherwise revise requested tool.", rfl, rfl, rfl⟩

/-- Claim C9 (amended): requesting a tool under a workflow name that was
never registered raises the "does not exist" ValueError of
`Actuator.action_space`, whose message interpolates the workflow name only;
the tool name is named only by the separate error raised when the workflow
exists but the tool does not. -/
theorem get_action_unregistered_workflow_msg (st : ActuatorState) (w f : String)
    (h : lookupStr st.action_space w = none) :
    Actuator.get_action st w f =
      .error (.valueError ("Requested " ++ w ++ " does not exist in the Actuator. Please check if this function is defined otherwise revise requested tool.")) := by
  simp [Actuator.get_action, Actuator.action_space, h]

/-- Witness for the amended C9 theorem at the concrete lookup of the claim. -/
theorem get_action_unregistered_workflow_msg_witness :
    Actuator.get_action Actuator.emptyState "unregistered_workflow" "foo" =
      .error (.valueError ("Requested " ++ "unregistered_workflow" ++ " does not exist in the Actuator. Please check if this function is defined otherwise revise requested tool.")) :=
  get_action_unregistered_workflow_msg Actuator.emptyState "unregistered_workflow" "foo" rfl

/-- One successful `Spine.run` call appends exactly one listener record to
the history and leaves the temporary holder empty. -/
lemma spine_run_ok_state (cls : SpineClass) (st : SpineState) (kw : KW)
    (out : String) (st' : SpineState)
    (h : Spine.run cls st kw = (.ok out, st')) :
    (∃ l, st'.history = st.history ++ [l]) ∧ st'.current = none := by
  cases hpre : cls.pre kw with
  | error e =>
      simp [Spine.run, hpre] at h
  | ok ik =>
      cases hcur : st.current with
      | some c =>
          simp [Spine.run, Spine.input_listener, hpre, hcur] at h
      | none =>
          cases hpost : cls.post mockResponse with
          | error e =>
              simp [Spine.run, Spine.input_listener, Spine.output_listener,
                hpre, hcur, hpost] at h
          | ok o =>
              simp [Spine.run, Spine.input_listener, Spine.output_listener,
                hpre, hcur, hpost] at h
              obtain ⟨-, h2⟩ := h
              subst h2
              exact ⟨⟨_, rfl⟩, rfl⟩

/-- A successful sequence of `Spine.run` calls appends one record per call,
in order, and (when at least one call ran) leaves the holder empty. -/
lemma spine_runAll_ok (cls : SpineClass) :
    ∀ (calls : List KW) (st st' : SpineState),
      Spine.runAll cls st calls = some st' →
      ∃ ls, st'.history = st.history ++ ls ∧ ls.length = calls.length ∧
        (st'.current = none ∨ st' = st) := by
  intro calls
  induction calls with
  | nil =>
      intro st st' h
      simp [Spine.runAll] at h
      subst h
      exact ⟨[], by simp, rfl, Or.inr rfl⟩
  | cons kw rest ih =>
      intro st st' h
      rcases hr : Spine.run cls st kw with ⟨r, st1⟩
      cases r with
      | error e =>
          simp [Spine.runAll, hr] at h
      | ok o =>
          simp only [Spine.runAll, hr] at h
          obtain ⟨ls, hl, hlen, hcur⟩ := ih st1 st' h
          obtain ⟨⟨l, hl1⟩, hc1⟩ := spine_run_ok_state cls st kw o st1 hr
          refine ⟨l :: ls, ?_, by simp [hlen], Or.inl ?_⟩
          · rw [hl, hl1]; simp
          · rcases hcur with h1 | h1
            · exact h1
            · rw [h1]; exact hc1

/-- Claim C10: every successful `Spine.run` call appends exactly one
`SpineListener` record to the instance history and resets the temporary
`current` holder to None; histories only ever grow by appending on the
right (so records are never mutated or removed); and after `n` successful
`run` calls on a fresh instance the history holds exactly `n` records in
call order. -/
theorem spine_run_history_append :
    (∀ (cls : SpineClass) (st : SpineState) (kw : KW) (out : String) (st' : SpineState),
        Spine.run cls st kw = (.ok out, st') →
        (∃ l, st'.history = st.history ++ [l]) ∧ st'.current = none) ∧
    (∀ (cls : SpineClass) (calls : List KW) (st st' : SpineState),
        Spine.runAll cls st calls = some st' →
        ∃ ls, st'.history = st.history ++ ls ∧ ls.length = calls.length) ∧
    (∀ (cls : SpineClass) (calls : List KW) (st' : SpineState),
        Spine.runAll cls Spine.initState calls = some st' →
        st'.history.length = calls.length) := by
  refine ⟨?_, ?_, ?_⟩
  · exact spine_run_ok_state
  · intro cls calls st st' h
    obtain ⟨ls, hl, hlen, -⟩ := spine_runAll_ok cls calls st st' h
    exact ⟨ls, hl, hlen⟩
  · intro cls calls st' h
    obtain ⟨ls, hl, hlen, -⟩ := spine_runAll_ok cls calls Spine.initState st' h
    simp [hl, Spine.initState, hlen]

/-- Witness for C10: two successful calls of the `DataSummary` caller on a
fresh instance append exactly two records. -/
theorem spine_run_history_append_witness :
    ∃ ls,
      ({ current := none,
         history := [
           { function := "DataSummary",
             input := some { message := [{ role := "system", content := "prompt" }],
                             raw_input := [("data_summary", "a")] },
             output := some mockResponse },
           { function := "DataSummary",
             input := some { message := [{ role := "system", content := "prompt" }],
                             raw_input := [("data_summary", "b")] },
             output := some mockResponse } ] } : SpineState).history =
        Spine.initState.history ++ ls ∧
      ls.length = [[("data_summary", "a")], [("data_summary", "b")]].length :=
  spine_run_history_append.2.1 dataSummaryClass
    [[("data_summary", "a")], [("data_summary", "b")]] Spine.initState _ rfl
